import Mathlib

/-!
# Shallow embedding of the NOC monitoring backend (server.js)

This file embeds the backend of the NOC monitoring system — a Node/Express
server that polls two MySQL stores and republishes rows over Socket.IO —
and proves properties of the embedded functions.

Conventions of the embedding:
* Database queries are modelled by explicit outcome values (`Except` of an
  error message and a row list), so a theorem can quantify over every
  possible query outcome, including failures.
* JavaScript numbers produced by `parseFloat` are modelled by `JSNum`
  (`nan`, signed infinity, or a rational value); `parseFloat` follows the
  ECMAScript `parseFloat` grammar (longest numeric prefix after optional
  whitespace and sign, `Infinity` literal, decimal point, exponent).
* `io.emit` calls are collected into the returned list of `Event`s, in
  emission order.
* `process.exit(1)` is the `exit` constructor of `StartupOutcome`.
* `setTimeout` sleeps are collected as a list of millisecond durations.
-/

namespace NocBackend

/-- A JavaScript number as produced by `parseFloat`: `NaN`, a signed
infinity, or a finite value (modelled as a rational). -/
inductive JSNum where
  | nan : JSNum
  | inf (positive : Bool) : JSNum
  | val (q : ℚ) : JSNum
deriving Repr, DecidableEq

/-- Whitespace as skipped by `parseFloat`. -/
def isWS (c : Char) : Bool :=
  c = ' ' || c = '\t' || c = '\n' || c = '\r'

/-- Decimal digit run to a natural number. -/
def digitsToNat (ds : List Char) : Nat :=
  ds.foldl (fun a c => a * 10 + (c.toNat - 48)) 0

/-- Consume an optional sign; returns (isNegative, rest). -/
def parseSign : List Char → Bool × List Char
  | '-' :: rest => (true, rest)
  | '+' :: rest => (false, rest)
  | l => (false, l)

/-- Parse an optional exponent part (`e`/`E`, optional sign, digits);
returns the exponent, `0` if absent or malformed (ECMAScript backtracks the
whole exponent part when its digits are missing). -/
def parseExponent : List Char → ℤ
  | c :: rest =>
    if c = 'e' || c = 'E' then
      let (eneg, rest2) := parseSign rest
      let eds := rest2.takeWhile Char.isDigit
      if eds.isEmpty then 0
      else if eneg then -(digitsToNat eds : ℤ) else (digitsToNat eds : ℤ)
    else 0
  | [] => 0

/-- ECMAScript `parseFloat` on an explicit character list (whitespace and
sign already handled by the caller). -/
def parseFloatBody (neg : Bool) (l : List Char) : JSNum :=
  if l.take 8 = "Infinity".data then JSNum.inf (!neg)
  else
    let ip := l.takeWhile Char.isDigit
    let r1 := l.dropWhile Char.isDigit
    let fp := if r1.head? = some '.' then r1.tail.takeWhile Char.isDigit else []
    let r2 := if r1.head? = some '.' then r1.tail.dropWhile Char.isDigit else r1
    if ip.isEmpty && fp.isEmpty then JSNum.nan
    else
      let ex := parseExponent r2
      let mantissa : ℚ := (digitsToNat ip : ℚ) + (digitsToNat fp : ℚ) / ((10 : ℚ) ^ fp.length)
      let v : ℚ := mantissa * (10 : ℚ) ^ ex
      JSNum.val (if neg then -v else v)

/-- ECMAScript `parseFloat`: skip whitespace, optional sign, then the
longest prefix matching `Infinity` or a decimal literal; `NaN` when no
numeric prefix exists. -/
def parseFloat (s : String) : JSNum :=
  let l := s.data.dropWhile isWS
  let (neg, l2) := parseSign l
  parseFloatBody neg l2

/-- Whether a character list starts with a numeric token (`Infinity`, a
digit, or a decimal point followed by a digit). Used to state, independently
of `parseFloat`, that a string is non-numeric. -/
def hasNumericPrefix (l : List Char) : Bool :=
  l.take 8 = "Infinity".data ||
  (match l with
   | [] => false
   | c :: rest =>
     c.isDigit ||
     (c = '.' && (match rest with
       | d :: _ => d.isDigit
       | [] => false)))

/-- A stored string is non-numeric when, after the whitespace and optional
sign that `parseFloat` skips, no numeric token follows. -/
def nonNumericString (s : String) : Bool :=
  !hasNumericPrefix (parseSign (s.data.dropWhile isWS)).2

/-- A row of `sensor_data` / `sensor_data1` (MySQL `dateStrings: true`, so
every field arrives as a string). -/
structure SensorRow where
  id : Nat
  suhu : String
  kelembapan : String
  waktu : String
deriving Repr, DecidableEq

/-- A row of `listrik_noc` or `api_asap_data`, emitted verbatim: a
timestamp field plus the remaining columns as name/value pairs. -/
structure GenericRow where
  id : Nat
  waktu : String
  fields : List (String × String)
deriving Repr, DecidableEq

/-- A row of the access-log join (`LEFT JOIN` makes `username` and
`door_name` nullable). -/
structure AccessLogRow where
  access_time : String
  access_granted : Bool
  username : Option String
  door_name : Option String
deriving Repr, DecidableEq

/-- The topics emitted by the poll loop. -/
inductive Topic where
  | noc_temperature | noc_humidity | ups_temperature | ups_humidity
  | electrical_data | fire_smoke_data | access_logs
deriving Repr, DecidableEq

/-- One `io.emit(topic, payload)` call. -/
inductive Event where
  | noc_temperature (suhu : JSNum) (waktu : String)
  | noc_humidity (kelembapan : JSNum) (waktu : String)
  | ups_temperature (suhu : JSNum) (waktu : String)
  | ups_humidity (kelembapan : JSNum) (waktu : String)
  | electrical_data (row : GenericRow)
  | fire_smoke_data (row : GenericRow)
  | access_logs (rows : List AccessLogRow)
deriving Repr, DecidableEq

/-- The topic of an emitted event. -/
def Event.topic : Event → Topic
  | .noc_temperature _ _ => .noc_temperature
  | .noc_humidity _ _ => .noc_humidity
  | .ups_temperature _ _ => .ups_temperature
  | .ups_humidity _ _ => .ups_humidity
  | .electrical_data _ => .electrical_data
  | .fire_smoke_data _ => .fire_smoke_data
  | .access_logs _ => .access_logs

/-- The outcomes of the five queries of one poll tick, in program order. -/
structure TickQueries where
  nocQ : Except String (List SensorRow)
  upsQ : Except String (List SensorRow)
  electricalQ : Except String (List GenericRow)
  fireSmokeQ : Except String (List GenericRow)
  accessQ : Except String (List AccessLogRow)

/-- Events emitted for the `sensor_data` query result (lines 229-239):
`noc_temperature` then `noc_humidity` from the latest row, nothing when the
result is empty. -/
def nocEvents : List SensorRow → List Event
  | [] => []
  | r :: _ =>
    [Event.noc_temperature (parseFloat r.suhu) r.waktu,
     Event.noc_humidity (parseFloat r.kelembapan) r.waktu]

/-- Events emitted for the `sensor_data1` query result (lines 243-253). -/
def upsEvents : List SensorRow → List Event
  | [] => []
  | r :: _ =>
    [Event.ups_temperature (parseFloat r.suhu) r.waktu,
     Event.ups_humidity (parseFloat r.kelembapan) r.waktu]

/-- Events emitted for the `listrik_noc` query result (lines 257-259): the
row verbatim. -/
def electricalEvents : List GenericRow → List Event
  | [] => []
  | r :: _ => [Event.electrical_data r]

/-- Events emitted for the `api_asap_data` query result (lines 263-265). -/
def fireSmokeEvents : List GenericRow → List Event
  | [] => []
  | r :: _ => [Event.fire_smoke_data r]

/-- Event emitted for the access-log join result (lines 280-282): the whole
ordered list, only when nonempty. -/
def accessEvents : List AccessLogRow → List Event
  | [] => []
  | rows => [Event.access_logs rows]

/-- `fetchAndEmitData` (lines 225-287). The five queries run sequentially
inside one `try`; a query failure jumps to the single `catch`, which logs
and returns, so events emitted before the failure stand and later queries
are skipped. `now` models the ambient wall clock at the tick, which the
function never reads. -/
def fetchAndEmitData (_now : String) (q : TickQueries) : List Event :=
  match q.nocQ with
  | .error _ => []
  | .ok noc =>
    let e1 := nocEvents noc
    match q.upsQ with
    | .error _ => e1
    | .ok ups =>
      let e2 := upsEvents ups
      match q.electricalQ with
      | .error _ => e1 ++ e2
      | .ok el =>
        let e3 := electricalEvents el
        match q.fireSmokeQ with
        | .error _ => e1 ++ e2 ++ e3
        | .ok fs =>
          let e4 := fireSmokeEvents fs
          match q.accessQ with
          | .error _ => e1 ++ e2 ++ e3 ++ e4
          | .ok al => e1 ++ e2 ++ e3 ++ e4 ++ accessEvents al

/-- The fixed emission order of the seven topics within one tick. -/
def canonicalTopicOrder : List Topic :=
  [.noc_temperature, .noc_humidity, .ups_temperature, .ups_humidity,
   .electrical_data, .fire_smoke_data, .access_logs]

/-- `true` when the outcome succeeded. -/
def isOk {α : Type} : Except String α → Bool
  | .ok _ => true
  | .error _ => false

/-- `true` when the outcome succeeded with at least one row. -/
def okNonempty {α : Type} : Except String (List α) → Bool
  | .ok (_ :: _) => true
  | _ => false

/-- Whether a topic's query executes during the tick, succeeds, and returns
rows — the condition under which its events are emitted. A query executes
only when every query before it in program order succeeded, because a
failure jumps to the shared `catch`. -/
def emitsTopic (q : TickQueries) : Topic → Bool
  | .noc_temperature => okNonempty q.nocQ
  | .noc_humidity => okNonempty q.nocQ
  | .ups_temperature => isOk q.nocQ && okNonempty q.upsQ
  | .ups_humidity => isOk q.nocQ && okNonempty q.upsQ
  | .electrical_data => isOk q.nocQ && isOk q.upsQ && okNonempty q.electricalQ
  | .fire_smoke_data =>
    isOk q.nocQ && isOk q.upsQ && isOk q.electricalQ && okNonempty q.fireSmokeQ
  | .access_logs =>
    isOk q.nocQ && isOk q.upsQ && isOk q.electricalQ && isOk q.fireSmokeQ &&
      okNonempty q.accessQ

/-- The per-query event batches of one tick, in program order, each tagged
with its query's outcome. -/
def perQueryEvents (q : TickQueries) : List (Except String (List Event)) :=
  [q.nocQ.map nocEvents, q.upsQ.map upsEvents, q.electricalQ.map electricalEvents,
   q.fireSmokeQ.map fireSmokeEvents, q.accessQ.map accessEvents]

/-- Concatenate successful batches up to (and excluding) the first failed
one; everything after the first failure is dropped. -/
def takeUntilError : List (Except String (List Event)) → List Event
  | [] => []
  | .error _ :: _ => []
  | .ok l :: rest => l ++ takeUntilError rest

/-- Configuration of a MySQL connection pool (the fields the two pools
differ in). -/
structure PoolConfig where
  host : String
  user : String
  database : String
  connectionLimit : Nat
deriving Repr, DecidableEq

/-- A created pool, identified by its configuration. -/
structure Pool where
  config : PoolConfig
deriving Repr, DecidableEq

/-- Configuration of the primary pool (database `suhu`, lines 52-64). -/
def primaryPoolConfig : PoolConfig :=
  { host := "10.10.11.27", user := "root", database := "suhu", connectionLimit := 10 }

/-- Configuration of the access-log pool (database `rfid_access_control`,
lines 84-94). -/
def accessLogsPoolConfig : PoolConfig :=
  { host := "10.10.11.27", user := "root", database := "rfid_access_control",
    connectionLimit := 5 }

/-- What one run of `createPoolWithRetry` did: its result, how many
connection attempts it made, and the `setTimeout` sleeps (in ms) it
performed, in order. -/
structure RetryTrace where
  result : Except String Pool
  attempts : Nat
  sleepsMs : List Nat
deriving Repr

/-- The `for` loop of `createPoolWithRetry` (lines 50-78), with `conn i`
the outcome of the `pool.getConnection()` test on attempt `i` and
`remaining` the attempts left (`retries - i`). On failure the loop sleeps
`delay` ms unless this was the last attempt, then the function throws
(line 79). -/
def createPoolGo (conn : Nat → Bool) (delay : Nat) : Nat → Nat → RetryTrace
  | _, 0 =>
    { result := .error "Failed to connect to database after multiple attempts",
      attempts := 0, sleepsMs := [] }
  | i, remaining + 1 =>
    if conn i then
      { result := .ok { config := primaryPoolConfig }, attempts := 1, sleepsMs := [] }
    else if remaining = 0 then
      { result := .error "Failed to connect to database after multiple attempts",
        attempts := 1, sleepsMs := [] }
    else
      { result := (createPoolGo conn delay (i + 1) remaining).result,
        attempts := (createPoolGo conn delay (i + 1) remaining).attempts + 1,
        sleepsMs := delay :: (createPoolGo conn delay (i + 1) remaining).sleepsMs }

/-- `createPoolWithRetry(retries = 5, delay = 5000)` (line 49). -/
def createPoolWithRetry (conn : Nat → Bool) (retries : Nat := 5) (delay : Nat := 5000) :
    RetryTrace :=
  createPoolGo conn delay 0 retries

/-- `createAccessLogsPool` (lines 83-95): `createPool` only records the
configuration — no connection is tested — so it always succeeds. -/
def createAccessLogsPool : Except String Pool :=
  .ok { config := accessLogsPoolConfig }

/-- Result of the startup sequence: both pools, or process exit. -/
inductive StartupOutcome where
  | ok (primary : Pool) (accessLogs : Pool)
  | exit (code : Nat)
deriving Repr, DecidableEq

/-- `Promise.all([createPoolWithRetry(), createAccessLogsPool()])` with its
`then`/`catch` (lines 100-109): both results, or `process.exit(1)` when
either rejects. -/
def startup (conn : Nat → Bool) : StartupOutcome :=
  match (createPoolWithRetry conn).result, createAccessLogsPool with
  | .ok p, .ok alp => .ok p alp
  | _, _ => .exit 1

/-- A JSON response body, restricted to the shapes this server produces. -/
inductive ResponseBody where
  | rows (l : List AccessLogRow)
  | errJson (error : String)
  | errDetails (error : String) (details : String)
  | tokenJson (token : String)
deriving Repr, DecidableEq

/-- An HTTP response: status code and JSON body. -/
structure HttpResponse where
  status : Nat
  body : ResponseBody
deriving Repr, DecidableEq

/-- The `while (retries > 0)` loop of `GET /api/access-logs`
(lines 194-221): `attempt i` is the outcome of the `i`-th query (0-based).
On failure `retries` is decremented; at zero the handler answers 500 with
`{error, details}`, otherwise it sleeps 1 s and retries. `none` models the
loop falling through (unreachable from `retries = 3`). -/
def accessLogsGo (attempt : Nat → Except String (List AccessLogRow)) :
    Nat → Nat → Option HttpResponse
  | _, 0 => none
  | i, r + 1 =>
    match attempt i with
    | .ok rows => some { status := 200, body := .rows rows }
    | .error e =>
      if r = 0 then
        some { status := 500, body := .errDetails "Failed to fetch access logs" e }
      else accessLogsGo attempt (i + 1) r

/-- The `GET /api/access-logs` handler (line 193): the loop started with
`retries = 3`. -/
def accessLogsHandler (attempt : Nat → Except String (List AccessLogRow)) :
    Option HttpResponse :=
  accessLogsGo attempt 0 3

/-- A row of the `users` table of the primary store. -/
structure UserRow where
  id : Nat
  username : String
  password : String
deriving Repr, DecidableEq

/-- The `POST /api/login` handler (lines 125-156). `db u` is the outcome of
the `SELECT * FROM users WHERE username = ?` query, `bcryptCompare pw hash`
the outcome of `bcrypt.compare`, and `sign id name` the signed token. The
surrounding `try`/`catch` maps a query failure to 500. -/
def loginHandler (db : String → Except String (List UserRow))
    (bcryptCompare : String → String → Bool) (sign : Nat → String → String)
    (username password : String) : HttpResponse :=
  match db username with
  | .error _ => { status := 500, body := .errJson "Internal server error" }
  | .ok [] => { status := 401, body := .errJson "Invalid credentials" }
  | .ok (user :: _) =>
    if bcryptCompare password user.password then
      { status := 200, body := .tokenJson (sign user.id user.username) }
    else { status := 401, body := .errJson "Invalid credentials" }

/-- The payload of a verified JWT. -/
structure JwtUser where
  userId : Nat
  username : String
deriving Repr, DecidableEq

/-- JavaScript `String.prototype.split` with a one-character separator:
splits at every occurrence, keeping empty pieces (`"".split(' ')` is
`[""]`). -/
def jsSplitChar (sep : Char) : List Char → List (List Char)
  | [] => [[]]
  | c :: rest =>
    if c = sep then [] :: jsSplitChar sep rest
    else
      match jsSplitChar sep rest with
      | [] => [[c]]
      | w :: ws => (c :: w) :: ws

/-- `authHeader && authHeader.split(' ')[1]` followed by the `if (!token)`
truthiness test (lines 160-165): the extracted token, `none` when the
header is absent (modelled as `none`), has no second space-separated word,
or that word is empty (all falsy in JavaScript). The header string is
modelled by its character list. -/
def extractToken (authHeader : Option (List Char)) : Option (List Char) :=
  match authHeader with
  | none => none
  | some h =>
    match (jsSplitChar ' ' h).get? 1 with
    | none => none
    | some [] => none
    | some t => some t

/-- What the middleware does with a request: reject it with a status and
error body, or pass it to the route handler with the verified user. -/
inductive AuthResult where
  | reject (status : Nat) (error : String)
  | proceed (user : JwtUser)
deriving Repr, DecidableEq

/-- The `authenticateToken` middleware (lines 159-174): 401 without a
token, 403 when `jwt.verify` (modelled by `verify`, which checks signature
and expiry) fails, otherwise `next()` with the decoded user. -/
def authenticateToken (authHeader : Option (List Char))
    (verify : List Char → Except String JwtUser) : AuthResult :=
  match extractToken authHeader with
  | none => .reject 401 "No token provided"
  | some t =>
    match verify t with
    | .error _ => .reject 403 "Invalid token"
    | .ok u => .proceed u

/-- Which row each emitted event's timestamp must come from. The four
sensor events carry an explicit `waktu` field copied from the queried row;
the other three events carry the queried row(s) verbatim, so every
timestamp field they contain is the row's own. -/
def eventTimestampFromRow (q : TickQueries) : Event → Prop
  | .noc_temperature _ w => ∃ r rs, q.nocQ = .ok (r :: rs) ∧ w = r.waktu
  | .noc_humidity _ w => ∃ r rs, q.nocQ = .ok (r :: rs) ∧ w = r.waktu
  | .ups_temperature _ w => ∃ r rs, q.upsQ = .ok (r :: rs) ∧ w = r.waktu
  | .ups_humidity _ w => ∃ r rs, q.upsQ = .ok (r :: rs) ∧ w = r.waktu
  | .electrical_data row => ∃ rs, q.electricalQ = .ok (row :: rs)
  | .fire_smoke_data row => ∃ rs, q.fireSmokeQ = .ok (row :: rs)
  | .access_logs rows => q.accessQ = .ok rows

/-! ### Concrete inputs used by counterexamples and witnesses -/

/-- A UPS sensor row used in concrete tick inputs. -/
def upsRowA : SensorRow :=
  { id := 42, suhu := "19.5", kelembapan := "55.0", waktu := "2024-05-01 10:00:00" }

/-- A tick in which the first query (NOC sensor) fails while all four
later queries would succeed, the UPS one with a row. -/
def tickNocDown : TickQueries :=
  { nocQ := .error "connection lost", upsQ := .ok [upsRowA],
    electricalQ := .ok [], fireSmokeQ := .ok [], accessQ := .ok [] }

/-- A NOC sensor row whose stored numeric fields are non-numeric text. -/
def nocRowBad : SensorRow :=
  { id := 7, suhu := "error", kelembapan := "n/a", waktu := "2024-05-01 10:00:05" }

/-- A UPS sensor row whose stored numeric fields are non-numeric text. -/
def upsRowBad : SensorRow :=
  { id := 8, suhu := "--", kelembapan := "sensor offline", waktu := "2024-05-01 10:00:06" }

/-- A tick whose two sensor queries return malformed rows and whose other
queries return no rows. -/
def tickBadSensors : TickQueries :=
  { nocQ := .ok [nocRowBad], upsQ := .ok [upsRowBad], electricalQ := .ok [],
    fireSmokeQ := .ok [], accessQ := .ok [] }

/-- A tick whose NOC query succeeds with zero rows while the UPS query
returns a malformed row. -/
def tickEmptyNoc : TickQueries :=
  { nocQ := .ok [], upsQ := .ok [upsRowBad], electricalQ := .ok [],
    fireSmokeQ := .ok [], accessQ := .ok [] }

/-- An access-log row used in concrete inputs. -/
def accessRowA : AccessLogRow :=
  { access_time := "2024-05-01 09:59:00", access_granted := true,
    username := some "alice", door_name := none }

/-- An attempt oracle that fails twice, then succeeds. -/
def attemptsTwoFailures : Nat → Except String (List AccessLogRow) :=
  fun i => if i < 2 then .error ("fail " ++ toString i) else .ok [accessRowA]

/-- An attempt oracle that always fails. -/
def attemptsAllFail : Nat → Except String (List AccessLogRow) :=
  fun i => .error ("fail " ++ toString i)

/-- A users-table row with a bcrypt hash. -/
def userRowA : UserRow :=
  { id := 1, username := "admin", password := "$2a$10$hash" }

/-- A users table holding only `userRowA`. -/
def usersDbA : String → Except String (List UserRow) :=
  fun u => if u = "admin" then .ok [userRowA] else .ok []

/-- A bcrypt oracle accepting only the password `"s3cret"` against
`userRowA`'s hash. -/
def bcryptA : String → String → Bool :=
  fun pw hash => pw = "s3cret" && hash = userRowA.password

/-- A signing oracle. -/
def signA : Nat → String → String :=
  fun id name => "jwt-" ++ toString id ++ "-" ++ name

/-- A verify oracle accepting exactly the token `tok123`. -/
def verifyA : List Char → Except String JwtUser :=
  fun t => if t = "tok123".data then .ok { userId := 1, username := "admin" }
           else .error "invalid signature"

/-! ### Helper lemmas -/

/-- The tick's emissions are the per-query batches up to the first failed
query: the shared `catch` stops the tick there. -/
lemma fetch_eq_takeUntilError (now : String) (q : TickQueries) :
    fetchAndEmitData now q = takeUntilError (perQueryEvents q) := by
  obtain ⟨nq, uq, elq, fsq, aq⟩ := q
  rcases nq with e | nl <;> rcases uq with e' | ul <;>
    rcases elq with e'' | ell <;> rcases fsq with e''' | fsl <;>
    rcases aq with e'''' | al <;>
    simp [fetchAndEmitData, perQueryEvents, takeUntilError, Except.map]

/-- The topics of a tick's emissions are the canonical order filtered to
the topics whose query ran, succeeded and returned rows. -/
lemma fetch_topics_eq_filter (now : String) (q : TickQueries) :
    (fetchAndEmitData now q).map Event.topic =
      canonicalTopicOrder.filter (emitsTopic q) := by
  obtain ⟨nq, uq, elq, fsq, aq⟩ := q
  rcases nq with e | (_ | ⟨nr, nrs⟩) <;> rcases uq with e' | (_ | ⟨ur, urs⟩) <;>
    rcases elq with e'' | (_ | ⟨er, ers⟩) <;> rcases fsq with e''' | (_ | ⟨fr, frs⟩) <;>
    rcases aq with e'''' | (_ | ⟨ar, ars⟩) <;>
    simp [fetchAndEmitData, canonicalTopicOrder, emitsTopic, isOk, okNonempty,
      nocEvents, upsEvents, electricalEvents, fireSmokeEvents, accessEvents,
      Event.topic]

/-- When the first query succeeds, its events start the tick's output,
whatever the later queries do. -/
lemma nocEvents_prefix_fetch (now : String) (q : TickQueries) (noc : List SensorRow)
    (hq : q.nocQ = .ok noc) : nocEvents noc <+: fetchAndEmitData now q := by
  obtain ⟨nq, uq, elq, fsq, aq⟩ := q
  simp only at hq
  subst hq
  rcases uq with e' | ul <;> rcases elq with e'' | ell <;>
    rcases fsq with e''' | fsl <;> rcases aq with e'''' | al <;>
    simp only [fetchAndEmitData, List.append_assoc] <;>
    first
      | exact List.prefix_rfl
      | exact List.prefix_append _ _

/-- Without a numeric prefix, the parse body yields `NaN`. -/
lemma parseFloatBody_nan (b : Bool) (l : List Char)
    (h : hasNumericPrefix l = false) : parseFloatBody b l = JSNum.nan := by
  simp only [hasNumericPrefix, Bool.or_eq_false_iff, decide_eq_false_iff_not] at h
  obtain ⟨hInf, hRest⟩ := h
  unfold parseFloatBody
  rw [if_neg hInf]
  cases l with
  | nil => simp
  | cons c rest =>
    simp only [Bool.or_eq_false_iff, Bool.and_eq_false_iff] at hRest
    obtain ⟨hDig, hDot⟩ := hRest
    have hTake : (c :: rest).takeWhile Char.isDigit = [] := by
      simp [List.takeWhile, hDig]
    have hDrop : (c :: rest).dropWhile Char.isDigit = c :: rest := by
      simp [List.dropWhile, hDig]
    simp only [hTake, hDrop, List.head?_cons, List.tail_cons, Option.some.injEq]
    by_cases hc : c = '.'
    · subst hc
      rcases hDot with hc' | hrest
      · simp at hc'
      · cases rest with
        | nil => simp
        | cons d ds =>
          simp only [] at hrest
          simp [List.takeWhile, hrest]
    · simp [hc]

/-- A non-numeric stored string parses to `NaN`. -/
lemma parseFloat_nan_of_nonNumeric (s : String) (h : nonNumericString s = true) :
    parseFloat s = JSNum.nan := by
  unfold nonNumericString at h
  rw [Bool.not_eq_true'] at h
  unfold parseFloat
  exact parseFloatBody_nan _ _ h

/-- `split` never returns an empty list. -/
lemma jsSplitChar_ne_nil (sep : Char) (l : List Char) : jsSplitChar sep l ≠ [] := by
  induction l with
  | nil => simp [jsSplitChar]
  | cons c rest ih =>
    unfold jsSplitChar
    by_cases hc : c = sep
    · simp [hc]
    · simp only [hc, if_false]
      cases hrec : jsSplitChar sep rest with
      | nil => simp
      | cons w ws => simp

/-- A separator-free string splits into the single word it is. -/
lemma jsSplitChar_eq_single (sep : Char) (l : List Char) (h : sep ∉ l) :
    jsSplitChar sep l = [l] := by
  induction l with
  | nil => rfl
  | cons c rest ih =>
    rw [List.mem_cons] at h
    push_neg at h
    obtain ⟨hc, hrest⟩ := h
    unfold jsSplitChar
    have hcs : ¬ c = sep := fun hh => hc hh.symm
    rw [if_neg hcs, ih hrest]

/-- Unfolding of `jsSplitChar` at a non-separator head. -/
lemma jsSplitChar_cons_ne (sep c : Char) (rest : List Char) (h : ¬ c = sep) :
    jsSplitChar sep (c :: rest) =
      match jsSplitChar sep rest with
      | [] => [[c]]
      | w :: ws => (c :: w) :: ws := by
  conv_lhs => unfold jsSplitChar
  rw [if_neg h]

/-- Splitting `a ++ sep :: b` when `a` is separator-free yields `a`
followed by the split of `b`. -/
lemma jsSplitChar_append (sep : Char) (a b : List Char) (h : sep ∉ a) :
    jsSplitChar sep (a ++ sep :: b) = a :: jsSplitChar sep b := by
  induction a with
  | nil => simp [jsSplitChar]
  | cons c rest ih =>
    rw [List.mem_cons] at h
    push_neg at h
    obtain ⟨hc, hrest⟩ := h
    have hcs : ¬ c = sep := fun hh => hc hh.symm
    rw [List.cons_append, jsSplitChar_cons_ne sep c _ hcs, ih hrest]

/-- The retry loop makes at most `fuel` connection attempts. -/
lemma createPoolGo_attempts_le (conn : Nat → Bool) (delay : Nat) :
    ∀ (fuel i : Nat), (createPoolGo conn delay i fuel).attempts ≤ fuel := by
  intro fuel
  induction fuel with
  | zero => intro i; simp [createPoolGo]
  | succ n ih =>
    intro i
    unfold createPoolGo
    cases hc : conn i with
    | true => simp [hc]
    | false =>
      by_cases hn : n = 0
      · simp [hc, hn]
      · simp only [hc, Bool.false_eq_true, if_false, if_neg hn]
        have h2 := ih (i + 1)
        omega

/-- Every sleep the retry loop performs lasts `delay` milliseconds. -/
lemma createPoolGo_sleeps (conn : Nat → Bool) (delay : Nat) :
    ∀ (fuel i : Nat) (d : Nat),
      d ∈ (createPoolGo conn delay i fuel).sleepsMs → d = delay := by
  intro fuel
  induction fuel with
  | zero => intro i d hd; simp [createPoolGo] at hd
  | succ n ih =>
    intro i d hd
    unfold createPoolGo at hd
    cases hc : conn i with
    | true => simp [hc] at hd
    | false =>
      by_cases hn : n = 0
      · simp [hc, hn] at hd
      · simp only [hc, Bool.false_eq_true, if_false, if_neg hn, List.mem_cons] at hd
        rcases hd with rfl | hd
        · rfl
        · exact ih (i + 1) d hd

/-- When every attempt fails, the loop exhausts all `fuel` attempts and the
function throws. -/
lemma createPoolGo_all_fail (conn : Nat → Bool) (delay : Nat) :
    ∀ (fuel i : Nat), (∀ j, j < fuel → conn (i + j) = false) →
      (createPoolGo conn delay i fuel).result =
        .error "Failed to connect to database after multiple attempts" ∧
      (createPoolGo conn delay i fuel).attempts = fuel := by
  intro fuel
  induction fuel with
  | zero => intro i _; simp [createPoolGo]
  | succ n ih =>
    intro i hall
    have hc : conn i = false := by
      have := hall 0 (Nat.succ_pos n)
      simpa using this
    unfold createPoolGo
    by_cases hn : n = 0
    · simp [hc, hn]
    · simp only [hc, Bool.false_eq_true, if_false, if_neg hn]
      have hrec := ih (i + 1) (fun j hj => by
        have := hall (j + 1) (by omega)
        simpa [Nat.add_assoc, Nat.add_comm 1 j] using this)
      exact ⟨hrec.1, by omega⟩

/-- When some attempt within the budget succeeds, a pool is returned. -/
lemma createPoolGo_some_success (conn : Nat → Bool) (delay : Nat) :
    ∀ (fuel i : Nat), (∃ j, j < fuel ∧ conn (i + j) = true) →
      (createPoolGo conn delay i fuel).result = .ok { config := primaryPoolConfig } := by
  intro fuel
  induction fuel with
  | zero => intro i h; obtain ⟨j, hj, _⟩ := h; omega
  | succ n ih =>
    intro i h
    unfold createPoolGo
    cases hc : conn i with
    | true => simp [hc]
    | false =>
      obtain ⟨j, hj, hcj⟩ := h
      have hj0 : j ≠ 0 := by
        intro hj0
        rw [hj0] at hcj
        simp [hc] at hcj
      by_cases hn : n = 0
      · omega
      · simp only [hc, Bool.false_eq_true, if_false, if_neg hn]
        exact ih (i + 1) ⟨j - 1, by omega, by
          have : i + 1 + (j - 1) = i + j := by omega
          rw [this]; exact hcj⟩

/-- When the first two queries succeed, the UPS events of the second are
among the tick's emissions, whatever the later queries do. -/
lemma mem_fetch_of_mem_upsEvents (now : String) (q : TickQueries)
    (noc ups : List SensorRow) (hq : q.nocQ = .ok noc) (hu : q.upsQ = .ok ups)
    (x : Event) (hx : x ∈ upsEvents ups) : x ∈ fetchAndEmitData now q := by
  obtain ⟨nq, uq, elq, fsq, aq⟩ := q
  simp only at hq hu
  subst hq
  subst hu
  rcases elq with e'' | ell <;> rcases fsq with e''' | fsl <;> rcases aq with e'''' | al <;>
    simp [fetchAndEmitData, hx]

/-- Started with positive `retries`, the access-log loop always produces a
response — it never falls through. -/
lemma accessLogsGo_ne_none (attempt : Nat → Except String (List AccessLogRow)) :
    ∀ (fuel i : Nat), fuel ≠ 0 → accessLogsGo attempt i fuel ≠ none := by
  intro fuel
  induction fuel with
  | zero => intro i h; exact absurd rfl h
  | succ n ih =>
    intro i _
    unfold accessLogsGo
    cases ha : attempt i with
    | ok rows => simp
    | error e =>
      by_cases hn : n = 0
      · simp [hn]
      · simp only [hn, if_false]
        exact ih (i + 1) hn

/-- Everything `takeUntilError` keeps comes from a successful batch of the
input list. -/
lemma mem_takeUntilError (x : Event) :
    ∀ L : List (Except String (List Event)),
      x ∈ takeUntilError L → ∃ es, Except.ok es ∈ L ∧ x ∈ es := by
  intro L
  induction L with
  | nil => intro h; simp [takeUntilError] at h
  | cons hd tl ih =>
    cases hd with
    | error e => intro h; simp [takeUntilError] at h
    | ok l =>
      intro hx
      rw [takeUntilError] at hx
      rcases List.mem_append.mp hx with h | h
      · exact ⟨l, List.mem_cons_self _ _, h⟩
      · obtain ⟨es, hmem, hxe⟩ := ih h
        exact ⟨es, List.mem_cons_of_mem _ hmem, hxe⟩

/-- Events built from the NOC sensor batch carry the queried row's
timestamp. -/
lemma timestamp_ok_noc (q : TickQueries) (nl : List SensorRow)
    (hq : q.nocQ = .ok nl) (ev : Event) (hev : ev ∈ nocEvents nl) :
    eventTimestampFromRow q ev := by
  cases nl with
  | nil => simp [nocEvents] at hev
  | cons r rs =>
    simp [nocEvents] at hev
    rcases hev with rfl | rfl
    · exact ⟨r, rs, hq, rfl⟩
    · exact ⟨r, rs, hq, rfl⟩

/-- Events built from the UPS sensor batch carry the queried row's
timestamp. -/
lemma timestamp_ok_ups (q : TickQueries) (ul : List SensorRow)
    (hq : q.upsQ = .ok ul) (ev : Event) (hev : ev ∈ upsEvents ul) :
    eventTimestampFromRow q ev := by
  cases ul with
  | nil => simp [upsEvents] at hev
  | cons r rs =>
    simp [upsEvents] at hev
    rcases hev with rfl | rfl
    · exact ⟨r, rs, hq, rfl⟩
    · exact ⟨r, rs, hq, rfl⟩

/-- The electrical event carries the queried row verbatim. -/
lemma timestamp_ok_electrical (q : TickQueries) (el : List GenericRow)
    (hq : q.electricalQ = .ok el) (ev : Event) (hev : ev ∈ electricalEvents el) :
    eventTimestampFromRow q ev := by
  cases el with
  | nil => simp [electricalEvents] at hev
  | cons r rs =>
    simp [electricalEvents] at hev
    subst hev
    exact ⟨rs, hq⟩

/-- The fire/smoke event carries the queried row verbatim. -/
lemma timestamp_ok_fireSmoke (q : TickQueries) (fl : List GenericRow)
    (hq : q.fireSmokeQ = .ok fl) (ev : Event) (hev : ev ∈ fireSmokeEvents fl) :
    eventTimestampFromRow q ev := by
  cases fl with
  | nil => simp [fireSmokeEvents] at hev
  | cons r rs =>
    simp [fireSmokeEvents] at hev
    subst hev
    exact ⟨rs, hq⟩

/-- The access-log event carries the queried rows verbatim. -/
lemma timestamp_ok_access (q : TickQueries) (al : List AccessLogRow)
    (hq : q.accessQ = .ok al) (ev : Event) (hev : ev ∈ accessEvents al) :
    eventTimestampFromRow q ev := by
  cases al with
  | nil => simp [accessEvents] at hev
  | cons r rs =>
    simp [accessEvents] at hev
    subst hev
    exact hq

/-!
## Claim theorems
-/

/-- C1, counterexample: in the tick `tickNocDown` the first query (NOC
sensor) fails while the UPS query succeeds with a row, yet nothing at all
is emitted — the failure of one query does suppress the other queries'
events in the same tick, contradicting the claimed isolation. -/
theorem poll_isolation_counterexample :
    tickNocDown.nocQ = Except.error "connection lost" ∧
    tickNocDown.upsQ = Except.ok [upsRowA] ∧
    fetchAndEmitData "2024-05-01 10:00:01" tickNocDown = [] :=
  ⟨rfl, rfl, rfl⟩

/-- C1, amended: the five queries of a tick run sequentially inside one
shared `try`/`catch`, so the tick's emissions are exactly the per-query
event batches up to the first failing query: events of queries before the
failure are still emitted, queries after it are skipped for that tick, and
the error is suppressed (the function returns normally, so every query is
polled again on the next tick). -/
theorem poll_tick_shared_catch (now : String) (q : TickQueries) :
    fetchAndEmitData now q = takeUntilError (perQueryEvents q) :=
  fetch_eq_takeUntilError now q

/-- C2: a sensor row fetched by a tick always yields its temperature and
humidity events — whatever text its numeric fields hold — and when a field
is a non-numeric string the emitted value is `NaN`. The NOC conjunct needs
only a NOC row; the UPS conjunct needs only the NOC query's success (its
row list may be empty) together with a UPS row, matching the reachability
of the UPS emits in the shared `try`. -/
theorem sensor_nonnumeric_still_emitted (now : String) (q : TickQueries) :
    (∀ r rs, q.nocQ = .ok (r :: rs) →
      (Event.noc_temperature (parseFloat r.suhu) r.waktu ∈ fetchAndEmitData now q ∧
       Event.noc_humidity (parseFloat r.kelembapan) r.waktu ∈ fetchAndEmitData now q) ∧
      (nonNumericString r.suhu = true →
        Event.noc_temperature JSNum.nan r.waktu ∈ fetchAndEmitData now q) ∧
      (nonNumericString r.kelembapan = true →
        Event.noc_humidity JSNum.nan r.waktu ∈ fetchAndEmitData now q)) ∧
    (∀ nl r2 rs2, q.nocQ = .ok nl → q.upsQ = .ok (r2 :: rs2) →
      (Event.ups_temperature (parseFloat r2.suhu) r2.waktu ∈ fetchAndEmitData now q ∧
       Event.ups_humidity (parseFloat r2.kelembapan) r2.waktu ∈ fetchAndEmitData now q) ∧
      (nonNumericString r2.suhu = true →
        Event.ups_temperature JSNum.nan r2.waktu ∈ fetchAndEmitData now q) ∧
      (nonNumericString r2.kelembapan = true →
        Event.ups_humidity JSNum.nan r2.waktu ∈ fetchAndEmitData now q)) := by
  constructor
  · intro r rs hq
    have hsub : nocEvents (r :: rs) ⊆ fetchAndEmitData now q :=
      (nocEvents_prefix_fetch now q (r :: rs) hq).subset
    have h1 : Event.noc_temperature (parseFloat r.suhu) r.waktu ∈ nocEvents (r :: rs) := by
      simp [nocEvents]
    have h2 : Event.noc_humidity (parseFloat r.kelembapan) r.waktu ∈ nocEvents (r :: rs) := by
      simp [nocEvents]
    refine ⟨⟨hsub h1, hsub h2⟩, ?_, ?_⟩
    · intro hnn
      rw [← parseFloat_nan_of_nonNumeric _ hnn]
      exact hsub h1
    · intro hnn
      rw [← parseFloat_nan_of_nonNumeric _ hnn]
      exact hsub h2
  · intro nl r2 rs2 hq hu
    have h3 : Event.ups_temperature (parseFloat r2.suhu) r2.waktu ∈ upsEvents (r2 :: rs2) := by
      simp [upsEvents]
    have h4 : Event.ups_humidity (parseFloat r2.kelembapan) r2.waktu ∈ upsEvents (r2 :: rs2) := by
      simp [upsEvents]
    refine ⟨⟨mem_fetch_of_mem_upsEvents now q _ _ hq hu _ h3,
      mem_fetch_of_mem_upsEvents now q _ _ hq hu _ h4⟩, ?_, ?_⟩
    · intro hnn
      rw [← parseFloat_nan_of_nonNumeric _ hnn]
      exact mem_fetch_of_mem_upsEvents now q _ _ hq hu _ h3
    · intro hnn
      rw [← parseFloat_nan_of_nonNumeric _ hnn]
      exact mem_fetch_of_mem_upsEvents now q _ _ hq hu _ h4

/-- C2, witness: in `tickBadSensors` the NOC row stores `"error"` and the
UPS row `"--"`, and both NaN events are emitted; in `tickEmptyNoc` the NOC
query succeeds with zero rows, and the malformed UPS row's NaN temperature
and humidity events are still emitted. -/
theorem sensor_nonnumeric_witness :
    Event.noc_temperature JSNum.nan nocRowBad.waktu ∈
      fetchAndEmitData "2024-05-01 10:00:10" tickBadSensors ∧
    Event.ups_temperature JSNum.nan upsRowBad.waktu ∈
      fetchAndEmitData "2024-05-01 10:00:10" tickBadSensors ∧
    Event.ups_temperature JSNum.nan upsRowBad.waktu ∈
      fetchAndEmitData "2024-05-01 10:00:15" tickEmptyNoc ∧
    Event.ups_humidity JSNum.nan upsRowBad.waktu ∈
      fetchAndEmitData "2024-05-01 10:00:15" tickEmptyNoc := by
  have h1 := sensor_nonnumeric_still_emitted "2024-05-01 10:00:10" tickBadSensors
  have h2 := sensor_nonnumeric_still_emitted "2024-05-01 10:00:15" tickEmptyNoc
  exact ⟨(h1.1 nocRowBad [] rfl).2.1 rfl,
    (h1.2 [nocRowBad] upsRowBad [] rfl rfl).2.1 rfl,
    (h2.2 [] upsRowBad [] rfl rfl).2.1 rfl,
    (h2.2 [] upsRowBad [] rfl rfl).2.2 rfl⟩

/-- C9: within one tick the emitted topics are exactly the canonical order
`noc_temperature, noc_humidity, ups_temperature, ups_humidity,
electrical_data, fire_smoke_data, access_logs` filtered to the topics whose
query ran, succeeded and returned rows; in particular the emission sequence
is always a subsequence of that fixed order, so no topic is emitted before
an earlier topic of the order. -/
theorem poll_emission_fixed_order (now : String) (q : TickQueries) :
    (fetchAndEmitData now q).map Event.topic =
      canonicalTopicOrder.filter (emitsTopic q) ∧
    List.Sublist ((fetchAndEmitData now q).map Event.topic) canonicalTopicOrder := by
  refine ⟨fetch_topics_eq_filter now q, ?_⟩
  rw [fetch_topics_eq_filter now q]
  exact List.filter_sublist _

/-- C3: `GET /api/access-logs` makes up to 3 attempts. If all three fail
the response is HTTP 500 with an `{error, details}` body (details from the
last error); as soon as an attempt among the first three succeeds, the
response is the queried row set (HTTP 200), whatever happened before. -/
theorem access_logs_retry_responses
    (attempt : Nat → Except String (List AccessLogRow))
    (e0 e1 e2 : String) (rows : List AccessLogRow) :
    (attempt 0 = .error e0 → attempt 1 = .error e1 → attempt 2 = .error e2 →
      accessLogsHandler attempt =
        some { status := 500, body := .errDetails "Failed to fetch access logs" e2 }) ∧
    (attempt 0 = .ok rows →
      accessLogsHandler attempt = some { status := 200, body := .rows rows }) ∧
    (attempt 0 = .error e0 → attempt 1 = .ok rows →
      accessLogsHandler attempt = some { status := 200, body := .rows rows }) ∧
    (attempt 0 = .error e0 → attempt 1 = .error e1 → attempt 2 = .ok rows →
      accessLogsHandler attempt = some { status := 200, body := .rows rows }) := by
  refine ⟨?_, ?_, ?_, ?_⟩
  · intro h0 h1 h2
    simp [accessLogsHandler, accessLogsGo, h0, h1, h2]
  · intro h0
    simp [accessLogsHandler, accessLogsGo, h0]
  · intro h0 h1
    simp [accessLogsHandler, accessLogsGo, h0, h1]
  · intro h0 h1 h2
    simp [accessLogsHandler, accessLogsGo, h0, h1, h2]

/-- C3, witness: three consecutive failures answer 500 with error and
details fields; two failures followed by a success answer the row set. -/
theorem access_logs_retry_responses_witness :
    accessLogsHandler attemptsAllFail =
      some { status := 500, body := .errDetails "Failed to fetch access logs" "fail 2" } ∧
    accessLogsHandler attemptsTwoFailures =
      some { status := 200, body := .rows [accessRowA] } :=
  ⟨(access_logs_retry_responses attemptsAllFail "fail 0" "fail 1" "fail 2" []).1
      rfl rfl rfl,
   (access_logs_retry_responses attemptsTwoFailures "fail 0" "fail 1" "" [accessRowA]).2.2.2
      rfl rfl rfl⟩

/-- C4: startup acquires the two pools under `Promise.all`: the result is
either both pools or `process.exit(1)`, never a partial pair. The exit
happens exactly when the primary pool's bounded retry is exhausted (the
access-log `createPool` cannot fail: it tests no connection); the retry
budget is 5 attempts. Request handlers never halt the process: the
access-log route's loop always produces a response. -/
theorem startup_all_or_exit (conn : Nat → Bool) :
    ((∃ p alp, startup conn = .ok p alp) ∨ startup conn = .exit 1) ∧
    (startup conn = .exit 1 ↔ ∀ j, j < 5 → conn j = false) ∧
    (createPoolWithRetry conn).attempts ≤ 5 ∧
    createAccessLogsPool = .ok { config := accessLogsPoolConfig } ∧
    (∀ attempt, accessLogsHandler attempt ≠ none) := by
  refine ⟨?_, ⟨?_, ?_⟩, createPoolGo_attempts_le conn 5000 5 0, rfl, ?_⟩
  · cases hres : (createPoolWithRetry conn).result with
    | ok p =>
      refine Or.inl ⟨p, { config := accessLogsPoolConfig }, ?_⟩
      unfold startup
      rw [hres]
      rfl
    | error e =>
      refine Or.inr ?_
      unfold startup
      rw [hres]
  · intro hexit j hj
    by_contra hcj
    rw [Bool.not_eq_false] at hcj
    have hok : (createPoolWithRetry conn).result = .ok { config := primaryPoolConfig } :=
      createPoolGo_some_success conn 5000 5 0 ⟨j, hj, by simpa using hcj⟩
    unfold startup at hexit
    rw [hok] at hexit
    simp [createAccessLogsPool] at hexit
  · intro hall
    have herr : (createPoolWithRetry conn).result =
        .error "Failed to connect to database after multiple attempts" :=
      (createPoolGo_all_fail conn 5000 5 0 (fun j hj => by simpa using hall j hj)).1
    unfold startup
    rw [herr]
  · intro attempt
    exact accessLogsGo_ne_none attempt 3 0 (by omega)

/-- C4, witness: with every connection attempt failing, startup exits with
code 1 after at most 5 attempts; with the first attempt succeeding, both
pools are produced. -/
theorem startup_all_or_exit_witness :
    startup (fun _ => false) = .exit 1 ∧
    startup (fun _ => true) = .ok { config := primaryPoolConfig }
      { config := accessLogsPoolConfig } := by
  constructor
  · exact (startup_all_or_exit (fun _ => false)).2.1.2 (fun _ _ => rfl)
  · rcases (startup_all_or_exit (fun _ => true)).1 with ⟨p, alp, hp⟩ | hexit
    · rw [hp]
      have : startup (fun _ => true) = .ok { config := primaryPoolConfig }
          { config := accessLogsPoolConfig } := rfl
      rw [hp] at this
      rw [this]
    · have : startup (fun _ => true) = .ok { config := primaryPoolConfig }
          { config := accessLogsPoolConfig } := rfl
      rw [this] at hexit
      cases hexit

/-- C5: for every retry budget and delay, pool acquisition makes at most
`retries` connection attempts, every sleep between attempts lasts exactly
`delay` ms, exhausting all attempts surfaces the fatal error (after exactly
`retries` attempts — it never loops on), and any successful attempt within
the budget yields the pool. -/
theorem pool_retry_bounded (conn : Nat → Bool) (retries delay : Nat) :
    (createPoolWithRetry conn retries delay).attempts ≤ retries ∧
    (∀ d ∈ (createPoolWithRetry conn retries delay).sleepsMs, d = delay) ∧
    ((∀ j, j < retries → conn j = false) →
      (createPoolWithRetry conn retries delay).result =
        .error "Failed to connect to database after multiple attempts" ∧
      (createPoolWithRetry conn retries delay).attempts = retries) ∧
    ((∃ j, j < retries ∧ conn j = true) →
      (createPoolWithRetry conn retries delay).result =
        .ok { config := primaryPoolConfig }) := by
  refine ⟨createPoolGo_attempts_le conn delay retries 0,
    fun d hd => createPoolGo_sleeps conn delay retries 0 d hd, ?_, ?_⟩
  · intro hall
    exact createPoolGo_all_fail conn delay retries 0
      (fun j hj => by simpa using hall j hj)
  · rintro ⟨j, hj, hcj⟩
    exact createPoolGo_some_success conn delay retries 0 ⟨j, hj, by simpa using hcj⟩

/-- C5, witness: three always-failing attempts with a 7 ms delay end in the
fatal error after exactly 3 attempts and sleeps of 7 ms each. -/
theorem pool_retry_bounded_witness :
    (createPoolWithRetry (fun _ => false) 3 7).result =
      .error "Failed to connect to database after multiple attempts" ∧
    (createPoolWithRetry (fun _ => false) 3 7).attempts = 3 :=
  ⟨((pool_retry_bounded (fun _ => false) 3 7).2.2.1 (fun _ _ => rfl)).1,
    ((pool_retry_bounded (fun _ => false) 3 7).2.2.1 (fun _ _ => rfl)).2⟩

/-- C6: under the `/api/protected` prefix, a request without a token in
the `Authorization` header is answered 401, a request whose token fails
verification (signature or expiry, modelled by the `verify` oracle) is
answered 403, and a request reaches the route handler exactly when its
extracted token verifies. -/
theorem protected_routes_auth (h : Option (List Char))
    (verify : List Char → Except String JwtUser) :
    (extractToken h = none →
      authenticateToken h verify = .reject 401 "No token provided") ∧
    (∀ t e, extractToken h = some t → verify t = .error e →
      authenticateToken h verify = .reject 403 "Invalid token") ∧
    (∀ u, authenticateToken h verify = .proceed u ↔
      ∃ t, extractToken h = some t ∧ verify t = .ok u) := by
  refine ⟨?_, ?_, ?_⟩
  · intro hnone
    simp [authenticateToken, hnone]
  · intro t e ht hv
    simp [authenticateToken, ht, hv]
  · intro u
    constructor
    · intro hp
      cases hx : extractToken h with
      | none => simp [authenticateToken, hx] at hp
      | some t =>
        cases hv : verify t with
        | error e => simp [authenticateToken, hx, hv] at hp
        | ok u' =>
          simp only [authenticateToken, hx, hv] at hp
          simp only [AuthResult.proceed.injEq] at hp
          exact ⟨t, rfl, by rw [hv, hp]⟩
    · rintro ⟨t, hx, hv⟩
      simp [authenticateToken, hx, hv]

/-- C6, witness: with the `verifyA` oracle, a missing header is answered
401, a bad token 403, and the valid token proceeds as user 1. -/
theorem protected_routes_auth_witness :
    authenticateToken none verifyA = .reject 401 "No token provided" ∧
    authenticateToken (some "Bearer wrong".data) verifyA = .reject 403 "Invalid token" ∧
    authenticateToken (some "Bearer tok123".data) verifyA =
      .proceed { userId := 1, username := "admin" } :=
  ⟨(protected_routes_auth none verifyA).1 rfl,
   (protected_routes_auth (some "Bearer wrong".data) verifyA).2.1
     "wrong".data "invalid signature" rfl rfl,
   ((protected_routes_auth (some "Bearer tok123".data) verifyA).2.2
     { userId := 1, username := "admin" }).2 ⟨"tok123".data, rfl, rfl⟩⟩

/-- C7: a login for an unknown username and a login for a known username
with a wrong password produce the same response — HTTP 401 with body
`{error: "Invalid credentials"}` — so the two causes are indistinguishable
to the caller. -/
theorem login_no_user_enumeration
    (db : String → Except String (List UserRow))
    (bc : String → String → Bool) (sign : Nat → String → String)
    (u1 p1 u2 p2 : String) (r : UserRow) (rest : List UserRow)
    (h1 : db u1 = .ok []) (h2 : db u2 = .ok (r :: rest))
    (hbc : bc p2 r.password = false) :
    loginHandler db bc sign u1 p1 =
      { status := 401, body := .errJson "Invalid credentials" } ∧
    loginHandler db bc sign u2 p2 = loginHandler db bc sign u1 p1 := by
  have e1 : loginHandler db bc sign u1 p1 =
      { status := 401, body := .errJson "Invalid credentials" } := by
    simp [loginHandler, h1]
  have e2 : loginHandler db bc sign u2 p2 =
      { status := 401, body := .errJson "Invalid credentials" } := by
    simp [loginHandler, h2, hbc]
  exact ⟨e1, e2.trans e1.symm⟩

/-- C7, witness: against the one-user table `usersDbA`, the unknown user
`ghost` and the known user `admin` with a wrong password receive identical
401 responses. -/
theorem login_no_user_enumeration_witness :
    loginHandler usersDbA bcryptA signA "ghost" "whatever" =
      { status := 401, body := .errJson "Invalid credentials" } ∧
    loginHandler usersDbA bcryptA signA "admin" "wrongpw" =
      loginHandler usersDbA bcryptA signA "ghost" "whatever" :=
  login_no_user_enumeration usersDbA bcryptA signA "ghost" "whatever" "admin"
    "wrongpw" userRowA [] rfl rfl rfl

/-- C8: the poll tick is independent of the wall clock (`now` is never
read), and every emitted event's timestamp data comes from the originating
database row: the sensor events carry the queried row's `waktu`, and the
electrical, fire/smoke and access-log events carry the queried row(s)
verbatim. -/
theorem events_carry_row_timestamps (now1 now2 : String) (q : TickQueries) :
    fetchAndEmitData now1 q = fetchAndEmitData now2 q ∧
    ∀ ev ∈ fetchAndEmitData now1 q, eventTimestampFromRow q ev := by
  refine ⟨rfl, ?_⟩
  intro ev hev
  rw [fetch_eq_takeUntilError] at hev
  obtain ⟨es, hmem, hev⟩ := mem_takeUntilError ev _ hev
  simp only [perQueryEvents, List.mem_cons, List.not_mem_nil, or_false] at hmem
  rcases hmem with h | h | h | h | h
  · cases hq : q.nocQ with
    | error e => rw [hq] at h; simp [Except.map] at h
    | ok nl =>
      rw [hq] at h
      simp only [Except.map, Except.ok.injEq] at h
      exact timestamp_ok_noc q nl hq ev (h ▸ hev)
  · cases hq : q.upsQ with
    | error e => rw [hq] at h; simp [Except.map] at h
    | ok ul =>
      rw [hq] at h
      simp only [Except.map, Except.ok.injEq] at h
      exact timestamp_ok_ups q ul hq ev (h ▸ hev)
  · cases hq : q.electricalQ with
    | error e => rw [hq] at h; simp [Except.map] at h
    | ok el =>
      rw [hq] at h
      simp only [Except.map, Except.ok.injEq] at h
      exact timestamp_ok_electrical q el hq ev (h ▸ hev)
  · cases hq : q.fireSmokeQ with
    | error e => rw [hq] at h; simp [Except.map] at h
    | ok fl =>
      rw [hq] at h
      simp only [Except.map, Except.ok.injEq] at h
      exact timestamp_ok_fireSmoke q fl hq ev (h ▸ hev)
  · cases hq : q.accessQ with
    | error e => rw [hq] at h; simp [Except.map] at h
    | ok al =>
      rw [hq] at h
      simp only [Except.map, Except.ok.injEq] at h
      exact timestamp_ok_access q al hq ev (h ▸ hev)

/-- C8, witness: the NaN temperature event of `tickBadSensors` carries the
queried NOC row's `waktu`. -/
theorem events_carry_row_timestamps_witness :
    eventTimestampFromRow tickBadSensors
      (Event.noc_temperature JSNum.nan nocRowBad.waktu) :=
  (events_carry_row_timestamps "2024-05-01 10:00:11" "2024-05-01 10:00:12"
    tickBadSensors).2 _ (by decide)

/-- C10: the middleware takes the second space-separated word of the
`Authorization` header without checking the scheme: for any space-free
scheme word, a header `scheme ++ " " ++ token` whose token verifies is
accepted, while the same valid token sent as the whole header value is
rejected 401 as a missing token. -/
theorem auth_scheme_not_checked (scheme t : List Char)
    (verify : List Char → Except String JwtUser) (u : JwtUser)
    (hs : ' ' ∉ scheme) (ht : ' ' ∉ t) (hne : t ≠ [])
    (hv : verify t = .ok u) :
    authenticateToken (some (scheme ++ ' ' :: t)) verify = .proceed u ∧
    authenticateToken (some t) verify = .reject 401 "No token provided" := by
  constructor
  · have hsplit : jsSplitChar ' ' (scheme ++ ' ' :: t) = scheme :: [t] := by
      rw [jsSplitChar_append ' ' scheme t hs, jsSplitChar_eq_single ' ' t ht]
    cases t with
    | nil => exact absurd rfl hne
    | cons c cs =>
      have hex : extractToken (some (scheme ++ ' ' :: c :: cs)) = some (c :: cs) := by
        simp [extractToken, hsplit]
      simp [authenticateToken, hex, hv]
  · have hex : extractToken (some t) = none := by
      simp [extractToken, jsSplitChar_eq_single ' ' t ht]
    simp [authenticateToken, hex]

/-- C10, witness: the token accepted under the scheme word `Basic` is
rejected 401 when sent without any scheme prefix. -/
theorem auth_scheme_not_checked_witness :
    authenticateToken (some ("Basic tok123".data)) verifyA =
      .proceed { userId := 1, username := "admin" } ∧
    authenticateToken (some ("tok123".data)) verifyA =
      .reject 401 "No token provided" := by
  have h := auth_scheme_not_checked "Basic".data "tok123".data verifyA
    { userId := 1, username := "admin" } (by decide) (by decide) (by decide) rfl
  exact ⟨h.1, h.2⟩

end NocBackend
